import Mathlib

/-!
A shallow embedding of the retrieval core of
`samples/REST-API-Examples/rag-embeddings-examples.py`:
`cosine_similarity`, `find_similar_documents`, and the context assembly
performed inside `query_with_rag`.

Modelling choices:
* vector components are rationals, similarity scores are reals
  (the idealized model of Python floats);
* a raised Python exception is an Except.error;
* the remote call create_embedding made inside find_similar_documents
  is modelled as an explicit oracle parameter String → List ℚ describing
  the responses of the embedding provider;
* the stable Python sort list.sort(key=..., reverse=True) is modelled by a
  stable insertion sort with respect to descending score;
* the Python slice lst[:k] (which for negative k drops the last abs(k)
  elements) is modelled by pySlice.
-/

namespace Rag

/-- A document dictionary with `title` and `content` entries. -/
structure Doc where
  title : String
  content : String
deriving DecidableEq, Repr

/-- A raised Python exception; `cosine_similarity` raises
`ValueError("Vectors must have the same length")`. -/
inductive PyError where
  | valueError (msg : String)
deriving DecidableEq, Repr

/-- `sum(a * b for a, b in zip(vec_a, vec_b))`. -/
def dotProduct (a b : List ℚ) : ℚ :=
  ((a.zip b).map fun p => p.1 * p.2).sum

/-- `sum(x * x for x in v)`, the radicand of a magnitude in `cosine_similarity`. -/
def sumSquares (v : List ℚ) : ℚ :=
  (v.map fun x => x * x).sum

/-- `math.sqrt(sum(x * x for x in v))`: a Euclidean magnitude as computed in
`cosine_similarity`. -/
noncomputable def magnitude (v : List ℚ) : ℝ :=
  Real.sqrt (sumSquares v : ℝ)

/-- `cosine_similarity(vec_a, vec_b)`: raises `ValueError` on a length
mismatch, returns `0.0` if either magnitude is zero, otherwise the dot
product divided by the product of the magnitudes. -/
noncomputable def cosine_similarity (vec_a vec_b : List ℚ) : Except PyError ℝ :=
  if vec_a.length ≠ vec_b.length then
    .error (.valueError "Vectors must have the same length")
  else if magnitude vec_a = 0 ∨ magnitude vec_b = 0 then
    .ok 0
  else
    .ok ((dotProduct vec_a vec_b : ℝ) / (magnitude vec_a * magnitude vec_b))

/-- The numeric value `cosine_similarity` returns on equal-length inputs. -/
noncomputable def cosScore (a b : List ℚ) : ℝ :=
  if magnitude a = 0 ∨ magnitude b = 0 then 0
  else (dotProduct a b : ℝ) / (magnitude a * magnitude b)

/-- The descending-score order used by `similarities.sort(key=lambda x: x[1],
reverse=True)`: `x` precedes `y` when `y`'s score is at most `x`'s. -/
def scoreGe (x y : Doc × ℝ) : Prop := y.2 ≤ x.2

noncomputable instance : DecidableRel scoreGe :=
  fun x y => Real.decidableLE y.2 x.2

instance : IsTotal (Doc × ℝ) scoreGe :=
  ⟨fun x y => le_total y.2 x.2⟩

instance : IsTrans (Doc × ℝ) scoreGe :=
  ⟨fun _ _ _ h1 h2 => le_trans h2 h1⟩

/-- Python's `list.sort(key=lambda x: x[1], reverse=True)`: a stable sort
putting higher scores first. -/
noncomputable def sortByScoreDesc (l : List (Doc × ℝ)) : List (Doc × ℝ) :=
  l.insertionSort scoreGe

/-- Python's slice `lst[:k]` for an integer `k`: the first `k` elements when
`0 ≤ k`, and all but the last `|k|` elements when `k < 0`. -/
def pySlice {α : Type} (l : List α) (k : ℤ) : List α :=
  if 0 ≤ k then l.take k.toNat else l.take (l.length - (-k).toNat)

/-- The scoring loop of `find_similar_documents`: for each `(doc, emb)` pair
of the zipped lists in order, compute `cosine_similarity(query_embedding,
emb)` — a raised exception aborts the whole loop — and collect
`(doc, similarity)` pairs. -/
noncomputable def score_documents (query_embedding : List ℚ) :
    List (Doc × List ℚ) → Except PyError (List (Doc × ℝ))
  | [] => .ok []
  | (doc, emb) :: rest => do
    let s ← cosine_similarity query_embedding emb
    let tail ← score_documents query_embedding rest
    pure ((doc, s) :: tail)

/-- `find_similar_documents(query, documents, document_embeddings, top_k)`:
embeds the query via the provider oracle `create_embedding`, scores each
`(doc, emb)` pair of `zip(documents, document_embeddings)`, sorts by score
descending (stably), and returns the slice `similarities[:top_k]`. -/
noncomputable def find_similar_documents (create_embedding : String → List ℚ)
    (query : String) (documents : List Doc)
    (document_embeddings : List (List ℚ)) (top_k : ℤ) :
    Except PyError (List (Doc × ℝ)) := do
  let query_embedding := create_embedding query
  let similarities ← score_documents query_embedding
    (documents.zip document_embeddings)
  pure (pySlice (sortByScoreDesc similarities) top_k)

/-- The context assembly inside `query_with_rag`: each pair is formatted as
a bracketed title line followed on the next line by the content, and the
blocks are joined with a blank-line separator (the two-newline string). The
score component of each pair is ignored. -/
def build_context (similar_docs : List (Doc × ℝ)) : String :=
  String.intercalate "\n\n"
    (similar_docs.map fun p => "[" ++ p.1.title ++ "]\n" ++ p.1.content)

lemma sumSquares_nonneg (v : List ℚ) : 0 ≤ sumSquares v := by
  apply List.sum_nonneg
  intro x hx
  obtain ⟨y, _, rfl⟩ := List.mem_map.mp hx
  exact mul_self_nonneg y

lemma magnitude_eq_zero (v : List ℚ) : magnitude v = 0 ↔ sumSquares v = 0 := by
  rw [magnitude, Real.sqrt_eq_zero (by exact_mod_cast sumSquares_nonneg v)]
  exact Rat.cast_eq_zero

lemma dotProduct_cons (x y : ℚ) (xs ys : List ℚ) :
    dotProduct (x :: xs) (y :: ys) = x * y + dotProduct xs ys := by
  simp [dotProduct]

lemma dotProduct_comm (a b : List ℚ) : dotProduct a b = dotProduct b a := by
  induction a generalizing b with
  | nil => cases b <;> rfl
  | cons x xs ih =>
    cases b with
    | nil => rfl
    | cons y ys => rw [dotProduct_cons, dotProduct_cons, mul_comm x y, ih]

/-- C6: for all vectors `a` and `b`, `cosine_similarity` is symmetric:
`cosine_similarity a b = cosine_similarity b a` (on equal-length inputs the
scores coincide, and on mismatched lengths both sides raise the same
`ValueError`). -/
theorem cosine_similarity_symm (a b : List ℚ) :
    cosine_similarity a b = cosine_similarity b a := by
  rw [cosine_similarity, cosine_similarity]
  by_cases hl : a.length = b.length
  · rw [if_neg (not_not.mpr hl), if_neg (not_not.mpr hl.symm)]
    by_cases hm : magnitude a = 0 ∨ magnitude b = 0
    · rw [if_pos hm, if_pos hm.symm]
    · rw [if_neg hm, if_neg (fun h => hm h.symm)]
      rw [dotProduct_comm, mul_comm (magnitude a) (magnitude b)]
  · rw [if_pos hl, if_pos (Ne.symm hl)]

/-- C7: if the two vectors have equal length and at least one of them has
Euclidean magnitude exactly zero, `cosine_similarity` returns `0.0` rather
than raising an error. -/
theorem cosine_similarity_zero_vector (a b : List ℚ)
    (hlen : a.length = b.length)
    (h : magnitude a = 0 ∨ magnitude b = 0) :
    cosine_similarity a b = .ok 0 := by
  rw [cosine_similarity, if_neg (not_not.mpr hlen), if_pos h]

/-- Witness for C7 at the concrete input `[0]`, `[1]`. -/
theorem cosine_similarity_zero_vector_witness :
    cosine_similarity [(0 : ℚ)] [(1 : ℚ)] = .ok 0 :=
  cosine_similarity_zero_vector [0] [1] rfl
    (Or.inl ((magnitude_eq_zero [0]).mpr (by norm_num [sumSquares])))

/-- C8: `cosine_similarity` raises
`ValueError("Vectors must have the same length")` whenever the two vectors
have different lengths, and it returns a score only when the lengths are
equal. -/
theorem cosine_similarity_dimension_mismatch (a b : List ℚ) :
    (a.length ≠ b.length →
      cosine_similarity a b =
        .error (.valueError "Vectors must have the same length")) ∧
    (∀ s : ℝ, cosine_similarity a b = .ok s → a.length = b.length) := by
  constructor
  · intro h
    rw [cosine_similarity, if_pos h]
  · intro s hs
    by_contra h
    rw [cosine_similarity, if_pos h] at hs
    exact Except.noConfusion hs

/-- Witness for C8 at the concrete input `[1,2,3]`, `[1,2]`. -/
theorem cosine_similarity_dimension_mismatch_witness :
    cosine_similarity [(1 : ℚ), 2, 3] [(1 : ℚ), 2] =
      .error (.valueError "Vectors must have the same length") :=
  (cosine_similarity_dimension_mismatch [1, 2, 3] [1, 2]).1 (by decide)

/-- C10: on equal-length inputs `cosine_similarity` is total: it returns the
numeric score `cosScore a b` (the zero-magnitude guard makes the division
branch safe), and never raises. -/
theorem cosine_similarity_total (a b : List ℚ)
    (hlen : a.length = b.length) :
    cosine_similarity a b = .ok (cosScore a b) := by
  rw [cosine_similarity, cosScore, if_neg (not_not.mpr hlen)]
  split_ifs <;> rfl

/-- Witness for C10 at the concrete input `[1]`, `[1]`. -/
theorem cosine_similarity_total_witness :
    cosine_similarity [(1 : ℚ)] [(1 : ℚ)] = .ok (cosScore [1] [1]) :=
  cosine_similarity_total [1] [1] rfl

lemma score_documents_eq (qe : List ℚ) (pairs : List (Doc × List ℚ))
    (h : ∀ p ∈ pairs, (p.2 : List ℚ).length = qe.length) :
    score_documents qe pairs =
      .ok (pairs.map fun p => (p.1, cosScore qe p.2)) := by
  induction pairs with
  | nil => rfl
  | cons p rest ih =>
    obtain ⟨doc, emb⟩ := p
    have h1 : qe.length = emb.length :=
      (h ⟨doc, emb⟩ (List.mem_cons_self _ _)).symm
    simp only [score_documents]
    rw [cosine_similarity_total qe emb h1,
      ih fun p hp => h p (List.mem_cons_of_mem _ hp)]
    rfl

lemma find_similar_documents_eq (e : String → List ℚ) (q : String)
    (docs : List Doc) (vecs : List (List ℚ)) (k : ℤ)
    (hdim : ∀ v ∈ vecs, v.length = (e q).length) :
    find_similar_documents e q docs vecs k =
      .ok (pySlice (sortByScoreDesc
        ((docs.zip vecs).map fun p => (p.1, cosScore (e q) p.2))) k) := by
  simp only [find_similar_documents]
  rw [score_documents_eq (e q) (docs.zip vecs)
    fun p hp => hdim p.2 (List.of_mem_zip hp).2]
  rfl

lemma length_sortByScoreDesc (l : List (Doc × ℝ)) :
    (sortByScoreDesc l).length = l.length :=
  List.length_insertionSort scoreGe l

lemma sorted_sortByScoreDesc (l : List (Doc × ℝ)) :
    (sortByScoreDesc l).Pairwise scoreGe :=
  List.sorted_insertionSort scoreGe l

/-- C2: under the length preconditions and a non-negative `k`, the retriever
succeeds and returns exactly `min k N` scored pairs (`N` the number of
documents), sorted non-increasing by score; in particular `k = 0`, `k > N`
and `N = 0` all behave as the spec states, with no padding and no error. -/
theorem find_similar_documents_length_sorted (e : String → List ℚ)
    (q : String) (docs : List Doc) (vecs : List (List ℚ)) (k : ℤ)
    (hlen : docs.length = vecs.length)
    (hdim : ∀ v ∈ vecs, v.length = (e q).length)
    (hk : 0 ≤ k) :
    ∃ out, find_similar_documents e q docs vecs k = .ok out ∧
      out.length = min k.toNat docs.length ∧
      out.Pairwise fun x y => y.2 ≤ x.2 := by
  refine ⟨_, find_similar_documents_eq e q docs vecs k hdim, ?_, ?_⟩
  · rw [pySlice, if_pos hk, List.length_take, length_sortByScoreDesc,
      List.length_map, List.length_zip, ← hlen]
    simp [min_self]
  · exact List.Pairwise.imp (fun h => h)
      ((sorted_sortByScoreDesc _).sublist
        (by rw [pySlice, if_pos hk]; exact List.take_sublist _ _))

/-- Witness for C2 at a concrete input: one document, `k = 3`. -/
theorem find_similar_documents_length_sorted_witness :
    ∃ out, find_similar_documents (fun _ => [(1 : ℚ)]) "q"
        [Doc.mk "t" "c"] [[(1 : ℚ)]] 3 = .ok out ∧
      out.length = min (3 : ℤ).toNat [Doc.mk "t" "c"].length ∧
      out.Pairwise fun x y => y.2 ≤ x.2 :=
  find_similar_documents_length_sorted (fun _ => [(1 : ℚ)]) "q"
    [Doc.mk "t" "c"] [[(1 : ℚ)]] 3 rfl
    (by intro v hv; rw [List.mem_singleton] at hv; rw [hv]) (by norm_num)

lemma filter_orderedInsert (s : ℝ) (x : Doc × ℝ) (l : List (Doc × ℝ)) :
    (List.orderedInsert scoreGe x l).filter (fun p => decide (p.2 = s)) =
      (x :: l).filter fun p => decide (p.2 = s) := by
  induction l with
  | nil => rfl
  | cons y l ih =>
    rw [List.orderedInsert]
    by_cases h : scoreGe x y
    · rw [if_pos h]
    · rw [if_neg h]
      have hlt : x.2 < y.2 := lt_of_not_le h
      by_cases hx : x.2 = s <;> by_cases hy : y.2 = s
      · exact absurd (hx.trans hy.symm) (ne_of_lt hlt)
      · simp [List.filter_cons, ih, hx, hy]
      · simp [List.filter_cons, ih, hx, hy]
      · simp [List.filter_cons, ih, hx, hy]

lemma filter_sortByScoreDesc (s : ℝ) (l : List (Doc × ℝ)) :
    (sortByScoreDesc l).filter (fun p => decide (p.2 = s)) =
      l.filter fun p => decide (p.2 = s) := by
  induction l with
  | nil => rfl
  | cons x l ih =>
    show (List.orderedInsert scoreGe x (List.insertionSort scoreGe l)).filter _ = _
    rw [filter_orderedInsert, List.filter_cons, List.filter_cons]
    rw [show (List.insertionSort scoreGe l).filter (fun p => decide (p.2 = s)) =
      l.filter fun p => decide (p.2 = s) from ih]

/-- C3: the scored list is built in input order, the output slice comes from
a stable descending sort of it: for every score value `s`, the subsequence
of entries scoring exactly `s` appears in the sorted list in the same order
as in the input-ordered scored list, so ties keep original input order. -/
theorem find_similar_documents_stable (e : String → List ℚ) (q : String)
    (docs : List Doc) (vecs : List (List ℚ)) (k : ℤ)
    (hdim : ∀ v ∈ vecs, v.length = (e q).length) :
    ∃ sims, sims = ((docs.zip vecs).map fun p => (p.1, cosScore (e q) p.2)) ∧
      find_similar_documents e q docs vecs k =
        .ok (pySlice (sortByScoreDesc sims) k) ∧
      ∀ s : ℝ, (sortByScoreDesc sims).filter (fun p => decide (p.2 = s)) =
        sims.filter fun p => decide (p.2 = s) :=
  ⟨_, rfl, find_similar_documents_eq e q docs vecs k hdim,
    fun s => filter_sortByScoreDesc s _⟩

/-- Witness for C3 at a concrete input. -/
theorem find_similar_documents_stable_witness :
    ∃ sims, sims = (([Doc.mk "t" "c"].zip [[(1 : ℚ)]]).map
        fun p => (p.1, cosScore ((fun _ => [(1 : ℚ)]) "q") p.2)) ∧
      find_similar_documents (fun _ => [(1 : ℚ)]) "q"
          [Doc.mk "t" "c"] [[(1 : ℚ)]] 2 =
        .ok (pySlice (sortByScoreDesc sims) 2) ∧
      ∀ s : ℝ, (sortByScoreDesc sims).filter (fun p => decide (p.2 = s)) =
        sims.filter fun p => decide (p.2 = s) :=
  find_similar_documents_stable (fun _ => [(1 : ℚ)]) "q"
    [Doc.mk "t" "c"] [[(1 : ℚ)]] 2
    (by intro v hv; rw [List.mem_singleton] at hv; rw [hv])

lemma magnitude_zero_single : magnitude [(0 : ℚ)] = 0 :=
  (magnitude_eq_zero [0]).mpr (by norm_num [sumSquares])

lemma magnitude_one_single : magnitude [(1 : ℚ)] = 1 := by
  rw [magnitude, show sumSquares [1] = 1 from by norm_num [sumSquares]]
  rw [Rat.cast_one, Real.sqrt_one]

lemma cosScore_zero_zero : cosScore [(0 : ℚ)] [(0 : ℚ)] = 0 := by
  rw [cosScore, if_pos (Or.inl magnitude_zero_single)]

lemma cosScore_zero_one : cosScore [(0 : ℚ)] [(1 : ℚ)] = 0 := by
  rw [cosScore, if_pos (Or.inl magnitude_zero_single)]

lemma cosScore_one_one : cosScore [(1 : ℚ)] [(1 : ℚ)] = 1 := by
  have h1 : ¬(magnitude [(1 : ℚ)] = 0 ∨ magnitude [(1 : ℚ)] = 0) := by
    rw [magnitude_one_single]; norm_num
  rw [cosScore, if_neg h1, magnitude_one_single,
    show dotProduct [(1 : ℚ)] [(1 : ℚ)] = 1 from by norm_num [dotProduct]]
  norm_num

/-- C1 counterexample: with two documents but only one document vector,
`find_similar_documents` does not raise; it silently truncates to the
single zipped pair and returns it. -/
theorem find_similar_documents_mismatch_counterexample :
    [Doc.mk "d1" "c1", Doc.mk "d2" "c2"].length ≠
        ([[(0 : ℚ)]] : List (List ℚ)).length ∧
      find_similar_documents (fun _ => [(0 : ℚ)]) "q"
          [Doc.mk "d1" "c1", Doc.mk "d2" "c2"] [[(0 : ℚ)]] 3 =
        .ok [(Doc.mk "d1" "c1", 0)] := by
  refine ⟨by decide, ?_⟩
  rw [find_similar_documents_eq _ _ _ _ _
    (by intro v hv; rw [List.mem_singleton] at hv; rw [hv])]
  simp [sortByScoreDesc, pySlice, cosScore_zero_zero]

/-- C1 amended: on a documents/vectors length mismatch the retriever does
not fail; `zip` silently truncates, so (for well-dimensioned vectors and
non-negative `k`) it returns `min k (min N M)` pairs where `N` and `M` are
the two sequence lengths. -/
theorem find_similar_documents_truncates (e : String → List ℚ) (q : String)
    (docs : List Doc) (vecs : List (List ℚ)) (k : ℤ)
    (hdim : ∀ v ∈ vecs, v.length = (e q).length) (hk : 0 ≤ k) :
    ∃ out, find_similar_documents e q docs vecs k = .ok out ∧
      out.length = min k.toNat (min docs.length vecs.length) := by
  refine ⟨_, find_similar_documents_eq e q docs vecs k hdim, ?_⟩
  rw [pySlice, if_pos hk, List.length_take, length_sortByScoreDesc,
    List.length_map, List.length_zip]

/-- Witness for the amended C1 at a concrete mismatched input. -/
theorem find_similar_documents_truncates_witness :
    ∃ out, find_similar_documents (fun _ => [(0 : ℚ)]) "q"
        [Doc.mk "d1" "c1", Doc.mk "d2" "c2"] [[(0 : ℚ)]] 3 = .ok out ∧
      out.length = min (3 : ℤ).toNat
        (min [Doc.mk "d1" "c1", Doc.mk "d2" "c2"].length
          ([[(0 : ℚ)]] : List (List ℚ)).length) :=
  find_similar_documents_truncates (fun _ => [(0 : ℚ)]) "q"
    [Doc.mk "d1" "c1", Doc.mk "d2" "c2"] [[(0 : ℚ)]] 3
    (by intro v hv; rw [List.mem_singleton] at hv; rw [hv]) (by norm_num)

/-- C4 counterexample: same query string, documents, document vectors and
`k`, but two different embedding-provider behaviours give two different
retrieval results — the operation is not a function of the listed explicit
inputs alone, because it calls the provider to embed the query. -/
theorem find_similar_documents_network_counterexample :
    find_similar_documents (fun _ => [(1 : ℚ)]) "q"
        [Doc.mk "d" "c"] [[(1 : ℚ)]] 1 ≠
      find_similar_documents (fun _ => [(0 : ℚ)]) "q"
        [Doc.mk "d" "c"] [[(1 : ℚ)]] 1 := by
  rw [find_similar_documents_eq _ _ _ _ _
    (by intro v hv; rw [List.mem_singleton] at hv; rw [hv]),
    find_similar_documents_eq _ _ _ _ _
    (by intro v hv; rw [List.mem_singleton] at hv; subst hv; decide)]
  simp [sortByScoreDesc, pySlice, cosScore_one_one, cosScore_zero_one]

/-- C4 amended: the embedding provider is the only implicit dependency:
whenever two provider behaviours agree on the query, the whole retrieval
result agrees; everything after the provider call is a pure function of the
explicit inputs. -/
theorem find_similar_documents_provider_determined (e1 e2 : String → List ℚ)
    (q : String) (docs : List Doc) (vecs : List (List ℚ)) (k : ℤ)
    (h : e1 q = e2 q) :
    find_similar_documents e1 q docs vecs k =
      find_similar_documents e2 q docs vecs k := by
  simp only [find_similar_documents, h]

/-- Witness for the amended C4 at a concrete input. -/
theorem find_similar_documents_provider_determined_witness :
    find_similar_documents (fun _ => [(1 : ℚ)]) "q" [Doc.mk "d" "c"]
        [[(1 : ℚ)]] 1 =
      find_similar_documents (fun _s => [(1 : ℚ)]) "q" [Doc.mk "d" "c"]
        [[(1 : ℚ)]] 1 :=
  find_similar_documents_provider_determined (fun _ => [(1 : ℚ)])
    (fun _s => [(1 : ℚ)]) "q" [Doc.mk "d" "c"] [[(1 : ℚ)]] 1 rfl

/-- C5 counterexample: a negative `k` does not raise any error; with one
document and `k = -1` the retriever returns the empty list (the Python
slice drops the last element). -/
theorem find_similar_documents_negative_k_counterexample :
    find_similar_documents (fun _ => [(0 : ℚ)]) "q" [Doc.mk "d1" "c1"]
        [[(0 : ℚ)]] (-1) = .ok [] := by
  rw [find_similar_documents_eq _ _ _ _ _
    (by intro v hv; rw [List.mem_singleton] at hv; rw [hv])]
  norm_num [sortByScoreDesc, pySlice, cosScore_zero_zero]

/-- C5 amended: for a negative `k` the retriever succeeds and returns the
ranked list with its last `-k` entries dropped (Python slice semantics),
i.e. `N - (-k)` entries clamped at zero, where `N` is the number of
documents. -/
theorem find_similar_documents_negative_k (e : String → List ℚ) (q : String)
    (docs : List Doc) (vecs : List (List ℚ)) (k : ℤ)
    (hlen : docs.length = vecs.length)
    (hdim : ∀ v ∈ vecs, v.length = (e q).length) (hk : k < 0) :
    ∃ out, find_similar_documents e q docs vecs k = .ok out ∧
      out.length = docs.length - (-k).toNat := by
  refine ⟨_, find_similar_documents_eq e q docs vecs k hdim, ?_⟩
  rw [pySlice, if_neg (not_le.mpr hk), List.length_take,
    length_sortByScoreDesc, List.length_map, List.length_zip, ← hlen]
  simp

/-- Witness for the amended C5 at a concrete input with `k = -1`. -/
theorem find_similar_documents_negative_k_witness :
    ∃ out, find_similar_documents (fun _ => [(0 : ℚ)]) "q"
        [Doc.mk "d1" "c1"] [[(0 : ℚ)]] (-1) = .ok out ∧
      out.length = [Doc.mk "d1" "c1"].length - (-(-1 : ℤ)).toNat :=
  find_similar_documents_negative_k (fun _ => [(0 : ℚ)]) "q"
    [Doc.mk "d1" "c1"] [[(0 : ℚ)]] (-1) rfl
    (by intro v hv; rw [List.mem_singleton] at hv; rw [hv]) (by norm_num)

lemma intercalate_go_append (s acc r : String) (l : List String) :
    String.intercalate.go (acc ++ r) s l =
      acc ++ String.intercalate.go r s l := by
  induction l generalizing r with
  | nil => rfl
  | cons a as ih =>
    simp only [String.intercalate.go]
    rw [String.append_assoc acc r s, String.append_assoc acc (r ++ s) a]
    exact ih (r ++ s ++ a)

lemma intercalate_cons_cons (s a b : String) (l : List String) :
    String.intercalate s (a :: b :: l) =
      a ++ s ++ String.intercalate s (b :: l) := by
  simp only [String.intercalate, String.intercalate.go]
  exact intercalate_go_append s (a ++ s) b l

lemma build_context_eq_on_titles (l : List (Doc × ℝ)) :
    build_context l = String.intercalate "\n\n"
      ((l.map Prod.fst).map fun d => "[" ++ d.title ++ "]\n" ++ d.content) := by
  rw [build_context, List.map_map]
  rfl

/-- C9: the context assembly returns the empty string on the empty input,
depends only on the documents (never on the scores), renders a single
candidate as its bracketed-title block, and joins successive blocks in
input order with the blank-line separator. -/
theorem build_context_correct :
    build_context [] = "" ∧
    (∀ l1 l2 : List (Doc × ℝ), l1.map Prod.fst = l2.map Prod.fst →
      build_context l1 = build_context l2) ∧
    (∀ (d : Doc) (s : ℝ),
      build_context [(d, s)] = "[" ++ d.title ++ "]\n" ++ d.content) ∧
    (∀ (d : Doc) (s : ℝ) (p : Doc × ℝ) (rest : List (Doc × ℝ)),
      build_context ((d, s) :: p :: rest) =
        "[" ++ d.title ++ "]\n" ++ d.content ++ "\n\n" ++
          build_context (p :: rest)) := by
  refine ⟨rfl, ?_, fun d s => rfl, ?_⟩
  · intro l1 l2 h
    rw [build_context_eq_on_titles, build_context_eq_on_titles, h]
  · intro d s p rest
    rw [build_context, build_context, List.map_cons, List.map_cons,
      intercalate_cons_cons]

/-- Witness for C9: two singleton inputs differing only in score assemble to
the same context. -/
theorem build_context_correct_witness :
    build_context [(Doc.mk "t" "c", (0 : ℝ))] =
      build_context [(Doc.mk "t" "c", (1 : ℝ))] :=
  build_context_correct.2.1 [(Doc.mk "t" "c", 0)] [(Doc.mk "t" "c", 1)] rfl

end Rag
